import Mathlib

/-!
Shallow embedding of `ci/optimized_targets.py`: the optimized-build-target
selector (`OptimizedBuildTarget`, `NullOptimizer`, `GeneralTestsOptimizer`)
and the change-description views (`ChangeInfo`).

Python strings are Lean `String`s, Python sets are `Finset String`, Python
lists are Lean `List`s.  Functions that can raise are embedded as
`Except PyError`-valued functions.  Side-effecting collaborators
(subprocess invocation, file reads/writes, the metrics agent) are embedded
by passing their observable results as explicit arguments and by modelling
written file contents as pure functions of the data written.
-/

/-- Python's substring containment `needle in haystack`. -/
def pyContains (haystack needle : String) : Bool :=
  decide (needle.data <:+: haystack.data)

/-- Modelled from the spec (not from the source): the specification's
segment-anchored match — "a line matches module `m` iff the line contains
the substring `/m/`", i.e. `m` anchored on path-separator boundaries on
both sides.  Used only to compare the claimed matching discipline with the
one `GeneralTestsOptimizer.get_build_targets_impl` actually implements. -/
def specSegmentMatch (line m : String) : Bool :=
  pyContains line ("/" ++ m ++ "/")

/-- Python's `os.path.dirname` for POSIX paths: everything before the last
separator, with trailing separators stripped from the head unless the head
consists solely of separators. -/
def pyDirname (p : String) : String :=
  let head := (p.data.reverse.dropWhile (fun c => c ≠ '/')).reverse
  if head.isEmpty ∨ head.all (fun c => c = '/') then String.mk head
  else String.mk ((head.reverse.dropWhile (fun c => c = '/')).reverse)

/-- The characters Python's `str.strip()` removes (ASCII whitespace:
space, tab, newline, carriage return, vertical tab, form feed). -/
def isPyWhitespace (c : Char) : Bool :=
  c = ' ' || c = '\t' || c = '\n' || c = '\r' ||
    c = Char.ofNat 11 || c = Char.ofNat 12

/-- Python's `str.strip()` with no argument: drop surrounding
whitespace. -/
def pyStrip (s : String) : String :=
  String.mk
    (((s.data.dropWhile isPyWhitespace).reverse.dropWhile
      isPyWhitespace).reverse)

/-- Splitting a character list on every occurrence of a separator; the
empty list yields one empty piece, matching Python's
`"".split(sep) == [""]` for an explicit separator. -/
def splitOnChar (sep : Char) : List Char → List (List Char)
  | [] => [[]]
  | c :: rest =>
    if c = sep then [] :: splitOnChar sep rest
    else
      match splitOnChar sep rest with
      | [] => [[c]]
      | piece :: pieces => (c :: piece) :: pieces

/-- Python's `str.split(sep)` for a one-character separator. -/
def pySplit (s : String) (sep : Char) : List String :=
  (splitOnChar sep s.data).map String.mk

/-- Python's `str.strip("'")`: drop single-quote characters (code point 39)
from both ends. -/
def pyStripQuote (s : String) : String :=
  String.mk
    (((s.data.dropWhile (fun c => c = Char.ofNat 39)).reverse.dropWhile
      (fun c => c = Char.ofNat 39)).reverse)

/-- The Python exception classes raised by the code under study. -/
inductive PyError where
  | runtimeError : String → PyError
  | typeError : String → PyError
deriving DecidableEq, Repr

/-- One entry of a `fileInfos` array in the change-description JSON. -/
structure FileInfo where
  path : String
deriving DecidableEq, Repr

/-- One entry of a `revisions` array in the change-description JSON. -/
structure Revision where
  fileInfos : List FileInfo
deriving DecidableEq, Repr

/-- One entry of the top-level `changes` array in the change-description
JSON. -/
structure Change where
  projectPath : String
  revisions : List Revision
deriving DecidableEq, Repr

/-- The parsed change-description document held by `ChangeInfo`
(`self._change_info_contents`). -/
structure ChangeInfo where
  changes : List Change
deriving DecidableEq, Repr

/-- The list of full changed-file paths, one per `FileInfo`, in iteration
order: `projectPath + "/" + fileInfo.path` (the code concatenates
`project_path = change.projectPath + "/"` with the sub-path). -/
def ChangeInfo.allChangedFiles (ci : ChangeInfo) : List String :=
  ci.changes.flatMap (fun change =>
    change.revisions.flatMap (fun rev =>
      rev.fileInfos.map (fun fi => change.projectPath ++ "/" ++ fi.path)))

/-- The list of changed-directory entries, one per `FileInfo`, in iteration
order: `projectPath + "/" + dirname(fileInfo.path)`. -/
def ChangeInfo.allChangedDirs (ci : ChangeInfo) : List String :=
  ci.changes.flatMap (fun change =>
    change.revisions.flatMap (fun rev =>
      rev.fileInfos.map (fun fi =>
        change.projectPath ++ "/" ++ pyDirname fi.path)))

/-- `ChangeInfo.get_changed_paths`: the set of directories containing
changed files. -/
def ChangeInfo.get_changed_paths (ci : ChangeInfo) : Finset String :=
  ci.allChangedDirs.toFinset

/-- `ChangeInfo.find_changed_files`: the set of full changed-file paths. -/
def ChangeInfo.find_changed_files (ci : ChangeInfo) : Finset String :=
  ci.allChangedFiles.toFinset

/-- The total number of `FileInfo` records in a change description
(Σ over changes and revisions of the number of file infos). -/
def ChangeInfo.totalFileInfos (ci : ChangeInfo) : Nat :=
  (ci.changes.map (fun change =>
    (change.revisions.map (fun rev => rev.fileInfos.length)).sum)).sum

/-- `GeneralTestsOptimizer._REQUIRED_MODULES`: modules always built
alongside general-tests. -/
def REQUIRED_MODULES : Finset String :=
  (["cts-tradefed", "vts-tradefed", "compatibility-host-util"] : List String).toFinset

/-- `GeneralTestsOptimizer.get_build_targets_impl`, as a function of the
full output catalog (`self._general_tests_outputs`, the lines of
`general-tests_files`) and the discovered candidate modules
(`test_modules`).  The source keeps `module` when
`[output for output in self._general_tests_outputs if module in output]`
is non-empty, i.e. when some catalog line contains `module` as a plain
substring. -/
def GeneralTestsOptimizer.get_build_targets_impl
    (general_tests_outputs : List String) (test_modules : Finset String) :
    Finset String :=
  REQUIRED_MODULES ∪
    test_modules.filter
      (fun m => general_tests_outputs.any (fun out => pyContains out m) = true)

/-- The build context: only its enabled-feature set is consulted by the
code under study. -/
structure BuildContext where
  enabled_build_features : Finset String

/-- `OptimizedBuildTarget._report_info_metrics_silently`: the whole `try`
body (metrics-agent lookup, `get_build_targets_impl`, the two report
calls) is embedded as one collaborator action that either succeeds or
fails with a message; an exception is caught and turned into the logged
line, and nothing escapes.  The returned list is the log output. -/
def report_info_metrics_silently (metricsAction : Except String Unit) :
    List String :=
  match metricsAction with
  | Except.ok _ => []
  | Except.error e => ["error while silently reporting metrics: " ++ e]

/-- `OptimizedBuildTarget.get_build_targets`: dispatch on the enabled flag.
`impl` is the value `get_build_targets_impl` would return on the enabled
path.  The result pairs the returned target set with the log lines emitted
by the silent metrics report. -/
def OptimizedBuildTarget.get_build_targets
    (target enabled_flag : String) (ctx : BuildContext)
    (impl : Finset String) (metricsAction : Except String Unit) :
    Finset String × List String :=
  if enabled_flag ∈ ctx.enabled_build_features then (impl, [])
  else if target = "general-tests" then
    ({target}, report_info_metrics_silently metricsAction)
  else ({target}, [])

/-- `OptimizedBuildTarget.get_package_outputs_commands`: dispatch on the
enabled flag; `impl` is the value `get_package_outputs_commands_impl`
would return on the enabled path. -/
def OptimizedBuildTarget.get_package_outputs_commands
    (enabled_flag : String) (ctx : BuildContext)
    (impl : List (List String)) : List (List String) :=
  if enabled_flag ∈ ctx.enabled_build_features then impl else []

/-- `NullOptimizer.get_build_targets`: unconditionally the singleton of the
given target; consults no collaborator (it takes nothing else). -/
def NullOptimizer.get_build_targets (target : String) : Finset String :=
  {target}

/-- `NullOptimizer.get_package_outputs_commands`: unconditionally empty. -/
def NullOptimizer.get_package_outputs_commands (target : String) :
    List (List String) :=
  []

/-- `OptimizedBuildTarget._generate_zip_options_for_items`.  Raises
`RuntimeError` when no list files, files, or directories are given
(Python's falsiness makes `None` and `[]` coincide, so absent arguments
are embedded as `[]`); otherwise emits the soong_zip option segment in
source order: `-P`, `-C`, the `-l` entries, the `-f` entries, the `-D`
entries. -/
def OptimizedBuildTarget.generate_zip_options_for_items
    (pfx relative_root : String)
    (list_files files directories : List String) :
    Except PyError (List String) :=
  if list_files.isEmpty && files.isEmpty && directories.isEmpty then
    Except.error (PyError.runtimeError
      ("No items specified to be added to zip! Prefix: " ++ pfx ++
        ", Relative root: " ++ relative_root))
  else
    Except.ok
      ((if pfx ≠ "" then ["-P", pfx] else []) ++
       (if relative_root ≠ "" then ["-C", relative_root] else []) ++
       list_files.flatMap (fun f => ["-l", f]) ++
       files.flatMap (fun f => ["-f", f]) ++
       directories.flatMap (fun d => ["-D", d]))

/-- The observable result of the `subprocess.run` collaborator invoked by
`_query_soong_vars`. -/
structure ProcessResult where
  returncode : Int
  stdout : String
  stderr : String

/-- `OptimizedBuildTarget._query_soong_vars`, as a function of the process
result.  A non-zero exit raises `RuntimeError("Soong dumpvars failed! See
log for stderr.")`.  Empty stdout reaches
`'Necessary soong variables ' + soong_vars + ' not found.'`, which
concatenates a `str` with a `list` and therefore raises `TypeError` while
building the intended message.  Otherwise stdout is stripped and split on
newlines; a line that splitting on `=` leaves in one piece (no `=`
separator) makes `line.split('=')[1]` raise `IndexError`, re-raised as a
`RuntimeError` whose message starts with `Error parsing soong dumpvars
output!`.  On success every line maps to the pair
`(split[0], split[1].strip("'"))`, in order. -/
def OptimizedBuildTarget.query_soong_vars
    (soong_vars : List String) (process_result : ProcessResult) :
    Except PyError (List (String × String)) :=
  if process_result.returncode ≠ 0 then
    Except.error (PyError.runtimeError
      "Soong dumpvars failed! See log for stderr.")
  else if process_result.stdout = "" then
    Except.error (PyError.typeError
      "can only concatenate str (not \"list\") to str")
  else
    let lines := pySplit (pyStrip process_result.stdout) '\n'
    if lines.all (fun line => 2 ≤ (pySplit line '=').length) then
      Except.ok (lines.map (fun line =>
        ((pySplit line '=').headD "",
         pyStripQuote (((pySplit line '=').drop 1).headD ""))))
    else
      Except.error (PyError.runtimeError
        ("Error parsing soong dumpvars output! See output here: " ++
          process_result.stdout))

/-- `OptimizedBuildTarget._PREBUILT_SOONG_ZIP_PATH`. -/
def PREBUILT_SOONG_ZIP_PATH : String :=
  "prebuilts/build-tools/linux-x86/bin/soong_zip"

/-- `OptimizedBuildTarget._base_zip_command`: archiver binary, `-d`, and
the `-o` destination under the dist directory.  Path joins are embedded as
`/`-separated string concatenation. -/
def OptimizedBuildTarget.base_zip_command
    (src_top dist_dir name : String) : List String :=
  [src_top ++ "/" ++ PREBUILT_SOONG_ZIP_PATH, "-d", "-o",
   dist_dir ++ "/" ++ name]

/-- Contents written to `host_out / 'host_general-tests_list'` by
`_get_zip_test_configs_zips_commands`: one line per host config file. -/
def host_config_list_contents (host_config_files : List String) : String :=
  String.join (host_config_files.map (fun f => f ++ "\n"))

/-- Contents written to `product_out / 'target_general-tests_list'` by
`_get_zip_test_configs_zips_commands`: one line per target config file.
(The combined `general-tests_list` file, whose entries are rewritten with
`os.path.relpath`, is also written there; no theorem below depends on its
contents, so it is not modelled.) -/
def target_config_list_contents (target_config_files : List String) : String :=
  String.join (target_config_files.map (fun f => f ++ "\n"))

/-- `GeneralTestsOptimizer._get_zip_test_configs_zips_commands`: builds the
`general-tests_configs.zip` command (host manifest and target manifest as
`-l` list files under the `host` and `target` prefixes) followed by the
`general-tests_list.zip` command (the combined list file as a `-f` file).
The three `_generate_zip_options_for_items` calls are evaluated in source
order and the first raised error propagates. -/
def GeneralTestsOptimizer.get_zip_test_configs_zips_commands
    (src_top dist_dir host_out product_out : String)
    (host_config_files target_config_files : List String) :
    Except PyError (List (List String)) :=
  match OptimizedBuildTarget.generate_zip_options_for_items "host" host_out
          [host_out ++ "/" ++ "host_general-tests_list"] [] [],
        OptimizedBuildTarget.generate_zip_options_for_items "target"
          product_out [product_out ++ "/" ++ "target_general-tests_list"] [] [],
        OptimizedBuildTarget.generate_zip_options_for_items "" host_out []
          [host_out ++ "/" ++ "general-tests_list"] [] with
  | Except.ok s1, Except.ok s2, Except.ok s3 =>
      Except.ok
        [OptimizedBuildTarget.base_zip_command src_top dist_dir
            "general-tests_configs.zip" ++ s1 ++ s2,
         OptimizedBuildTarget.base_zip_command src_top dist_dir
            "general-tests_list.zip" ++ s3]
  | Except.error e, _, _ => Except.error e
  | _, Except.error e, _ => Except.error e
  | _, _, Except.error e => Except.error e

/-- The filtered, absolutized output lines of
`get_package_outputs_commands_impl`: keep the catalog lines containing
`'/' + module + '/'` for some selected module, then prepend
`src_top + '/'`. -/
def GeneralTestsOptimizer.module_filtered_outputs
    (src_top : String) (modules_to_build : Finset String)
    (catalog_lines : List String) : List String :=
  (catalog_lines.filter (fun file =>
    decide (∃ m ∈ modules_to_build, pyContains file ("/" ++ m ++ "/") = true))).map
    (fun file => src_top ++ "/" ++ file)

/-- The host-testcases segment of the `general-tests.zip` command: present
only when there are host outputs (`if host_outputs:`), as a `-l` list file
`tmp_dir / 'host.list'`. -/
def general_tests_zip_host_segment
    (tmp_dir host_out : String) (host_outputs : List String) :
    Except PyError (List String) :=
  if host_outputs.isEmpty then Except.ok []
  else
    OptimizedBuildTarget.generate_zip_options_for_items "host" host_out
      [tmp_dir ++ "/" ++ "host.list"] [] []

/-- The target-testcases segment of the `general-tests.zip` command:
present only when there are target outputs, as a `-l` list file
`tmp_dir / 'target.list'`. -/
def general_tests_zip_target_segment
    (tmp_dir product_out : String) (target_outputs : List String) :
    Except PyError (List String) :=
  if target_outputs.isEmpty then Except.ok []
  else
    OptimizedBuildTarget.generate_zip_options_for_items "target" product_out
      [tmp_dir ++ "/" ++ "target.list"] [] []

/-- The hardcoded harness-tools segment of the `general-tests.zip` command:
the three tradefed jars under `host/tools`, rooted at
`soong_host_out / 'framework'`, always included. -/
def general_tests_zip_tools_segment (soong_host_out : String) :
    Except PyError (List String) :=
  OptimizedBuildTarget.generate_zip_options_for_items "host/tools"
    (soong_host_out ++ "/framework") []
    [soong_host_out ++ "/framework" ++ "/" ++ "cts-tradefed.jar",
     soong_host_out ++ "/framework" ++ "/" ++ "compatibility-host-util.jar",
     soong_host_out ++ "/framework" ++ "/" ++ "vts-tradefed.jar"] []

/-- `GeneralTestsOptimizer.get_package_outputs_commands_impl`, as a
function of the resolved directories, the selected modules, and the
host/target output catalogs.  It filters the catalogs by selected module,
derives the `.config` sublists (catalog lines keep their trailing
newline, so the suffix test is against `.config\n`), emits the two config
archive commands first, and appends the `general-tests.zip` command
(optional host segment, optional target segment, tools segment, trailing
`-sha256`) last. -/
def GeneralTestsOptimizer.get_package_outputs_commands_impl
    (src_top dist_dir tmp_dir host_out product_out soong_host_out : String)
    (modules_to_build : Finset String)
    (general_tests_host_outputs general_tests_target_outputs : List String) :
    Except PyError (List (List String)) :=
  let host_outputs := GeneralTestsOptimizer.module_filtered_outputs src_top
    modules_to_build general_tests_host_outputs
  let target_outputs := GeneralTestsOptimizer.module_filtered_outputs src_top
    modules_to_build general_tests_target_outputs
  let host_config_files := host_outputs.filter
    (fun file => file.endsWith ".config\n")
  let target_config_files := target_outputs.filter
    (fun file => file.endsWith ".config\n")
  match GeneralTestsOptimizer.get_zip_test_configs_zips_commands src_top
          dist_dir host_out product_out host_config_files target_config_files,
        general_tests_zip_host_segment tmp_dir host_out host_outputs,
        general_tests_zip_target_segment tmp_dir product_out target_outputs,
        general_tests_zip_tools_segment soong_host_out with
  | Except.ok zcs, Except.ok hseg, Except.ok tseg, Except.ok tools =>
      Except.ok (zcs ++
        [OptimizedBuildTarget.base_zip_command src_top dist_dir
            "general-tests.zip" ++ hseg ++ tseg ++ tools ++ ["-sha256"]])
  | Except.error e, _, _, _ => Except.error e
  | _, Except.error e, _, _ => Except.error e
  | _, _, Except.error e, _ => Except.error e
  | _, _, _, Except.error e => Except.error e

/-- If a needle occurs in a string it still occurs after appending a
suffix. -/
theorem pyContains_append_right (a b n : String) (h : pyContains a n = true) :
    pyContains (a ++ b) n = true := by
  simp only [pyContains, decide_eq_true_eq] at h ⊢
  rw [String.data_append]
  exact h.trans ⟨[], b.data, by simp⟩

/-- C1 (amended): for every discovered candidate module `m` outside the
required baseline, the selector adds `m` to the result set if and only if
some line of the full output catalog contains `m` as a plain substring
(not necessarily anchored on path-separator boundaries); a discovered
module with no matching output line is silently dropped rather than
raising an error. -/
theorem get_build_targets_impl_substring_characterization
    (general_tests_outputs : List String) (test_modules : Finset String)
    (m : String) (hm : m ∈ test_modules) (hreq : m ∉ REQUIRED_MODULES) :
    m ∈ GeneralTestsOptimizer.get_build_targets_impl general_tests_outputs
        test_modules ↔
      ∃ out ∈ general_tests_outputs, pyContains out m = true := by
  simp [GeneralTestsOptimizer.get_build_targets_impl, Finset.mem_union,
    Finset.mem_filter, hm, hreq, List.any_eq_true]

/-- C1 witness: a discovered module whose name occurs in a catalog line is
selected. -/
theorem get_build_targets_impl_substring_characterization_witness :
    "module_1" ∈ GeneralTestsOptimizer.get_build_targets_impl
      ["path/to/module_1/x"] {"module_1"} :=
  (get_build_targets_impl_substring_characterization ["path/to/module_1/x"]
    {"module_1"} "module_1" (by decide) (by decide)).mpr
    ⟨"path/to/module_1/x", by decide, by decide⟩

/-- C1 counterexample: the module name `odule_1` is merely a substring of
the path segment `module_1` of the only catalog line (no line contains it
anchored on path separators on both sides), yet
`get_build_targets_impl` selects it — the claimed segment-anchored
matching does not hold of the code, which matches plain substrings. -/
theorem substring_match_selects_counterexample :
    "odule_1" ∈ GeneralTestsOptimizer.get_build_targets_impl
        ["path/to/module_1/x"] {"odule_1"} ∧
    specSegmentMatch "path/to/module_1/x" "odule_1" = false ∧
    "odule_1" ∉ REQUIRED_MODULES := by decide

/-- C2: the selection is always a superset of the required-module
baseline, and with no discovered candidates it equals the baseline
exactly. -/
theorem required_modules_subset_selection
    (general_tests_outputs : List String) (test_modules : Finset String) :
    REQUIRED_MODULES ⊆ GeneralTestsOptimizer.get_build_targets_impl
        general_tests_outputs test_modules ∧
    GeneralTestsOptimizer.get_build_targets_impl general_tests_outputs ∅ =
      REQUIRED_MODULES := by
  constructor
  · exact Finset.subset_union_left
  · simp [GeneralTestsOptimizer.get_build_targets_impl]

/-- C3: when the governing flag is absent from the enabled-feature set,
`get_build_targets` returns exactly the singleton of the original target
and `get_package_outputs_commands` returns the empty list, whatever the
impl-path values would have been; the `NullOptimizer` variant satisfies
the same contract unconditionally. -/
theorem pass_through_contract
    (target enabled_flag : String) (ctx : BuildContext)
    (impl : Finset String) (pimpl : List (List String))
    (metricsAction : Except String Unit)
    (h : enabled_flag ∉ ctx.enabled_build_features) :
    (OptimizedBuildTarget.get_build_targets target enabled_flag ctx impl
        metricsAction).1 = {target} ∧
    OptimizedBuildTarget.get_package_outputs_commands enabled_flag ctx pimpl
        = [] ∧
    NullOptimizer.get_build_targets target = {target} ∧
    NullOptimizer.get_package_outputs_commands target = [] := by
  refine ⟨?_, ?_, rfl, rfl⟩
  · simp only [OptimizedBuildTarget.get_build_targets, if_neg h]
    split <;> rfl
  · simp [OptimizedBuildTarget.get_package_outputs_commands, h]

/-- C3 witness: pass-through at a concrete disabled-feature context. -/
theorem pass_through_contract_witness :
    (OptimizedBuildTarget.get_build_targets "general-tests"
        "general_tests_optimized" ⟨∅⟩ ∅ (Except.ok ())).1 =
      {"general-tests"} :=
  (pass_through_contract "general-tests" "general_tests_optimized" ⟨∅⟩ ∅ []
    (Except.ok ()) (by decide)).1

/-- C9: on the pass-through path for the `general-tests` target the silent
metrics report is attempted, and when the metrics collaborator fails with
any error the failure is only logged: `get_build_targets` still returns
the singleton of the target and the error appears solely in the log
component. -/
theorem metrics_failure_swallowed
    (enabled_flag : String) (ctx : BuildContext) (impl : Finset String)
    (e : String) (h : enabled_flag ∉ ctx.enabled_build_features) :
    (OptimizedBuildTarget.get_build_targets "general-tests" enabled_flag ctx
        impl (Except.error e)).1 = {"general-tests"} ∧
    (OptimizedBuildTarget.get_build_targets "general-tests" enabled_flag ctx
        impl (Except.error e)).2 =
      ["error while silently reporting metrics: " ++ e] := by
  simp [OptimizedBuildTarget.get_build_targets, h,
    report_info_metrics_silently]

/-- C9 witness: a concrete failing metrics action is swallowed. -/
theorem metrics_failure_swallowed_witness :
    (OptimizedBuildTarget.get_build_targets "general-tests"
        "general_tests_optimized" ⟨∅⟩ ∅ (Except.error "boom")).1 =
      {"general-tests"} :=
  (metrics_failure_swallowed "general_tests_optimized" ⟨∅⟩ ∅ "boom"
    (by decide)).1

/-- C4: the zip-segment builder raises a `RuntimeError` exactly when the
list-files, files, and directories arguments are all empty (or absent,
which Python's falsiness conflates with empty); whenever at least one item
is supplied no error is raised and an option segment is produced. -/
theorem zip_options_empty_error_iff (pfx root : String)
    (lfs fs ds : List String) :
    (lfs = [] ∧ fs = [] ∧ ds = [] →
      ∃ msg, OptimizedBuildTarget.generate_zip_options_for_items pfx root
          lfs fs ds = Except.error (PyError.runtimeError msg)) ∧
    (¬(lfs = [] ∧ fs = [] ∧ ds = []) →
      ∃ seg, OptimizedBuildTarget.generate_zip_options_for_items pfx root
          lfs fs ds = Except.ok seg) := by
  constructor
  · rintro ⟨rfl, rfl, rfl⟩
    exact ⟨_, rfl⟩
  · intro h
    have hb : (lfs.isEmpty && fs.isEmpty && ds.isEmpty) ≠ true := by
      intro hc
      simp only [Bool.and_eq_true, List.isEmpty_iff] at hc
      tauto
    refine ⟨(if pfx ≠ "" then ["-P", pfx] else []) ++
      (if root ≠ "" then ["-C", root] else []) ++
      lfs.flatMap (fun f => ["-l", f]) ++
      fs.flatMap (fun f => ["-f", f]) ++
      ds.flatMap (fun d => ["-D", d]), ?_⟩
    unfold OptimizedBuildTarget.generate_zip_options_for_items
    rw [if_neg hb]

/-- C4 witness: the all-empty call errors, a one-list-file call
succeeds. -/
theorem zip_options_empty_error_iff_witness :
    (∃ msg, OptimizedBuildTarget.generate_zip_options_for_items "p" "r"
        [] [] [] = Except.error (PyError.runtimeError msg)) ∧
    (∃ seg, OptimizedBuildTarget.generate_zip_options_for_items "p" "r"
        ["x"] [] [] = Except.ok seg) :=
  ⟨(zip_options_empty_error_iff "p" "r" [] [] []).1 ⟨rfl, rfl, rfl⟩,
   (zip_options_empty_error_iff "p" "r" ["x"] [] []).2 (by simp)⟩

/-- C7: the configuration-variable query fails on non-zero exit with a
`RuntimeError` whose message contains "dumpvars failed" (and not
"parsing"); fails on empty stdout; and fails on a stdout line without an
`=` separator with a distinct `RuntimeError` whose message contains
"parsing".  In each case it returns an error, never a partial result. -/
theorem query_soong_vars_failure_modes (sv : List String)
    (pr : ProcessResult) :
    (pr.returncode ≠ 0 →
      OptimizedBuildTarget.query_soong_vars sv pr =
        Except.error (PyError.runtimeError
          "Soong dumpvars failed! See log for stderr.") ∧
      pyContains "Soong dumpvars failed! See log for stderr."
        "dumpvars failed" = true ∧
      pyContains "Soong dumpvars failed! See log for stderr."
        "parsing" = false) ∧
    (pr.returncode = 0 → pr.stdout = "" →
      ∃ e, OptimizedBuildTarget.query_soong_vars sv pr = Except.error e) ∧
    (pr.returncode = 0 → pr.stdout ≠ "" →
      (pySplit (pyStrip pr.stdout) '\n').all
          (fun line => 2 ≤ (pySplit line '=').length) = false →
      ∃ msg, OptimizedBuildTarget.query_soong_vars sv pr =
          Except.error (PyError.runtimeError msg) ∧
        pyContains msg "parsing" = true) := by
  refine ⟨?_, ?_, ?_⟩
  · intro h1
    refine ⟨?_, by decide, by decide⟩
    simp [OptimizedBuildTarget.query_soong_vars, h1]
  · intro h1 h2
    refine ⟨PyError.typeError "can only concatenate str (not \"list\") to str", ?_⟩
    simp [OptimizedBuildTarget.query_soong_vars, h1, h2]
  · intro h1 h2 h3
    refine ⟨"Error parsing soong dumpvars output! See output here: " ++
      pr.stdout, ?_, ?_⟩
    · simp [OptimizedBuildTarget.query_soong_vars, h1, h2, h3]
    · exact pyContains_append_right
        "Error parsing soong dumpvars output! See output here: " pr.stdout
        "parsing" (by decide)

/-- C7 witness: the three failure modes at concrete process results. -/
theorem query_soong_vars_failure_modes_witness :
    OptimizedBuildTarget.query_soong_vars ["PRODUCT_OUT"] ⟨1, "", ""⟩ =
      Except.error (PyError.runtimeError
        "Soong dumpvars failed! See log for stderr.") ∧
    (∃ e, OptimizedBuildTarget.query_soong_vars ["PRODUCT_OUT"] ⟨0, "", ""⟩ =
      Except.error e) ∧
    (∃ msg, OptimizedBuildTarget.query_soong_vars ["PRODUCT_OUT"]
        ⟨0, "This output is bad", ""⟩ =
          Except.error (PyError.runtimeError msg) ∧
      pyContains msg "parsing" = true) :=
  ⟨((query_soong_vars_failure_modes ["PRODUCT_OUT"] ⟨1, "", ""⟩).1
      (by decide)).1,
   (query_soong_vars_failure_modes ["PRODUCT_OUT"] ⟨0, "", ""⟩).2.1 rfl rfl,
   (query_soong_vars_failure_modes ["PRODUCT_OUT"]
      ⟨0, "This output is bad", ""⟩).2.2 rfl (by decide) (by decide)⟩

/-- The flattened per-FileInfo list of full paths has exactly one entry
per `FileInfo` record. -/
theorem length_allChangedFiles (ci : ChangeInfo) :
    ci.allChangedFiles.length = ci.totalFileInfos := by
  simp [ChangeInfo.allChangedFiles, ChangeInfo.totalFileInfos,
    List.length_flatMap, Function.comp_def]

/-- The flattened per-FileInfo list of directory entries has exactly one
entry per `FileInfo` record. -/
theorem length_allChangedDirs (ci : ChangeInfo) :
    ci.allChangedDirs.length = ci.totalFileInfos := by
  simp [ChangeInfo.allChangedDirs, ChangeInfo.totalFileInfos,
    List.length_flatMap, Function.comp_def]

/-- C5 counterexample: `find_changed_files` returns a set, so two
`FileInfo` records with the same sub-path collapse to one entry — with
`ΣM = 2` file infos the returned set has 1 element, not exactly `ΣM`. -/
theorem changed_files_count_counterexample :
    (ChangeInfo.find_changed_files
        ⟨[⟨"p", [⟨[⟨"a"⟩, ⟨"a"⟩]⟩]⟩]⟩).card = 1 ∧
    ChangeInfo.totalFileInfos ⟨[⟨"p", [⟨[⟨"a"⟩, ⟨"a"⟩]⟩]⟩]⟩ = 2 := by decide

/-- C5 (amended): for every change description both `find_changed_files`
and `get_changed_paths` have at most `ΣM` entries (duplicates collapse in
both, since both are sets); `find_changed_files` has exactly `ΣM` entries
when the `ΣM` full paths are pairwise distinct. -/
theorem changed_sets_card_bounds (ci : ChangeInfo) :
    ci.find_changed_files.card ≤ ci.totalFileInfos ∧
    ci.get_changed_paths.card ≤ ci.totalFileInfos ∧
    (ci.allChangedFiles.Nodup →
      ci.find_changed_files.card = ci.totalFileInfos) := by
  refine ⟨?_, ?_, fun h => ?_⟩
  · rw [ChangeInfo.find_changed_files, ← length_allChangedFiles]
    exact List.toFinset_card_le _
  · rw [ChangeInfo.get_changed_paths, ← length_allChangedDirs]
    exact List.toFinset_card_le _
  · rw [ChangeInfo.find_changed_files, ← length_allChangedFiles]
    exact List.toFinset_card_of_nodup h

/-- C5 witness: with two distinct sub-paths the changed-file set has
exactly `ΣM = 2` entries. -/
theorem changed_sets_card_bounds_witness :
    (ChangeInfo.find_changed_files
        ⟨[⟨"p", [⟨[⟨"a"⟩, ⟨"b"⟩]⟩]⟩]⟩).card =
      ChangeInfo.totalFileInfos ⟨[⟨"p", [⟨[⟨"a"⟩, ⟨"b"⟩]⟩]⟩]⟩ :=
  (changed_sets_card_bounds ⟨[⟨"p", [⟨[⟨"a"⟩, ⟨"b"⟩]⟩]⟩]⟩).2.2 (by decide)

/-- A path without any separator character has empty dirname. -/
theorem pyDirname_of_no_slash (p : String) (h : ∀ ch ∈ p.data, ch ≠ '/') :
    pyDirname p = "" := by
  have hd : p.data.reverse.dropWhile (fun c => !decide (c = '/')) = [] := by
    rw [List.dropWhile_eq_nil_iff]
    intro x hx
    simpa using h x (List.mem_reverse.mp hx)
  simp [pyDirname, hd]

/-- C6: the changed-directory set contains exactly the strings
`projectPath + "/" + dirname(fileInfo.path)` (dirname of the sub-path,
joined with the projectPath); when the sub-path has no separator the
entry is `projectPath + "/"` with trailing separator, which differs from
`projectPath` itself. -/
theorem changed_dirs_characterization (ci : ChangeInfo) (s : String) :
    (s ∈ ci.get_changed_paths ↔
      ∃ c ∈ ci.changes, ∃ r ∈ c.revisions, ∃ fi ∈ r.fileInfos,
        s = c.projectPath ++ "/" ++ pyDirname fi.path) ∧
    (∀ c : Change, ∀ fi : FileInfo, (∀ ch ∈ fi.path.data, ch ≠ '/') →
      c.projectPath ++ "/" ++ pyDirname fi.path = c.projectPath ++ "/" ∧
      c.projectPath ++ "/" ≠ c.projectPath) := by
  constructor
  · simp [ChangeInfo.get_changed_paths, ChangeInfo.allChangedDirs,
      List.mem_flatMap, eq_comm]
  · intro c fi h
    refine ⟨by simp [pyDirname_of_no_slash fi.path h], fun heq => ?_⟩
    have hlen := congrArg String.length heq
    simp [String.length_append] at hlen
    exact absurd hlen (by decide)

/-- The zip-option builder succeeds whenever some argument list is
non-empty. -/
theorem zip_options_ok_of_ne_nil (pfx root : String)
    (lfs fs ds : List String) (h : lfs ≠ [] ∨ fs ≠ [] ∨ ds ≠ []) :
    ∃ seg, OptimizedBuildTarget.generate_zip_options_for_items pfx root
      lfs fs ds = Except.ok seg := by
  have hb : (lfs.isEmpty && fs.isEmpty && ds.isEmpty) ≠ true := by
    intro hc
    simp only [Bool.and_eq_true, List.isEmpty_iff] at hc
    rcases h with h | h | h
    · exact h hc.1.1
    · exact h hc.1.2
    · exact h hc.2
  refine ⟨(if pfx ≠ "" then ["-P", pfx] else []) ++
    (if root ≠ "" then ["-C", root] else []) ++
    lfs.flatMap (fun f => ["-l", f]) ++
    fs.flatMap (fun f => ["-f", f]) ++
    ds.flatMap (fun d => ["-D", d]), ?_⟩
  unfold OptimizedBuildTarget.generate_zip_options_for_items
  rw [if_neg hb]

/-- The exact value of the two config-archive commands: both are always
emitted, in order, the configs zip carrying the host and target manifests
as `-l` list files and the list zip carrying the combined list file as a
`-f` file. -/
theorem config_zips_commands_shape
    (src_top dist_dir host_out product_out : String)
    (hcf tcf : List String) :
    GeneralTestsOptimizer.get_zip_test_configs_zips_commands src_top
      dist_dir host_out product_out hcf tcf =
    Except.ok
      [OptimizedBuildTarget.base_zip_command src_top dist_dir
          "general-tests_configs.zip" ++
        (["-P", "host"] ++
          (if host_out ≠ "" then ["-C", host_out] else []) ++
          ["-l", host_out ++ "/" ++ "host_general-tests_list"]) ++
        (["-P", "target"] ++
          (if product_out ≠ "" then ["-C", product_out] else []) ++
          ["-l", product_out ++ "/" ++ "target_general-tests_list"]),
       OptimizedBuildTarget.base_zip_command src_top dist_dir
          "general-tests_list.zip" ++
        ((if host_out ≠ "" then ["-C", host_out] else []) ++
          ["-f", host_out ++ "/" ++ "general-tests_list"])] := by
  simp [GeneralTestsOptimizer.get_zip_test_configs_zips_commands,
    OptimizedBuildTarget.generate_zip_options_for_items]

/-- The host-testcases segment never fails. -/
theorem host_segment_ok (tmp_dir host_out : String) (ho : List String) :
    ∃ seg, general_tests_zip_host_segment tmp_dir host_out ho =
      Except.ok seg := by
  unfold general_tests_zip_host_segment
  split
  · exact ⟨[], rfl⟩
  · exact zip_options_ok_of_ne_nil _ _ _ _ _ (Or.inl (by simp))

/-- The target-testcases segment never fails. -/
theorem target_segment_ok (tmp_dir product_out : String)
    (touts : List String) :
    ∃ seg, general_tests_zip_target_segment tmp_dir product_out touts =
      Except.ok seg := by
  unfold general_tests_zip_target_segment
  split
  · exact ⟨[], rfl⟩
  · exact zip_options_ok_of_ne_nil _ _ _ _ _ (Or.inl (by simp))

/-- The harness-tools segment never fails. -/
theorem tools_segment_ok (soong_host_out : String) :
    ∃ seg, general_tests_zip_tools_segment soong_host_out =
      Except.ok seg := by
  unfold general_tests_zip_tools_segment
  exact zip_options_ok_of_ne_nil _ _ _ _ _ (Or.inr (Or.inl (by simp)))

/-- C8: for every selection, the planned command list consists of exactly
three archive commands, with the config-related ones (the configs zip,
then the list zip) strictly before the primary `general-tests.zip`
command, which is the last element of the returned list. -/
theorem package_outputs_command_order
    (src_top dist_dir tmp_dir host_out product_out soong_host_out : String)
    (modules : Finset String) (host_lines target_lines : List String) :
    ∃ c1 c2 c3,
      GeneralTestsOptimizer.get_package_outputs_commands_impl src_top
        dist_dir tmp_dir host_out product_out soong_host_out modules
        host_lines target_lines = Except.ok [c1, c2, c3] ∧
      c1.take 4 = OptimizedBuildTarget.base_zip_command src_top dist_dir
        "general-tests_configs.zip" ∧
      c2.take 4 = OptimizedBuildTarget.base_zip_command src_top dist_dir
        "general-tests_list.zip" ∧
      c3.take 4 = OptimizedBuildTarget.base_zip_command src_top dist_dir
        "general-tests.zip" ∧
      [c1, c2, c3].getLast? = some c3 := by
  obtain ⟨hseg, hh⟩ := host_segment_ok tmp_dir host_out
    (GeneralTestsOptimizer.module_filtered_outputs src_top modules
      host_lines)
  obtain ⟨tseg, ht⟩ := target_segment_ok tmp_dir product_out
    (GeneralTestsOptimizer.module_filtered_outputs src_top modules
      target_lines)
  obtain ⟨tools, htools⟩ := tools_segment_ok soong_host_out
  refine ⟨OptimizedBuildTarget.base_zip_command src_top dist_dir
      "general-tests_configs.zip" ++
      (["-P", "host"] ++ (if host_out ≠ "" then ["-C", host_out] else []) ++
        ["-l", host_out ++ "/" ++ "host_general-tests_list"]) ++
      (["-P", "target"] ++
        (if product_out ≠ "" then ["-C", product_out] else []) ++
        ["-l", product_out ++ "/" ++ "target_general-tests_list"]),
    OptimizedBuildTarget.base_zip_command src_top dist_dir
      "general-tests_list.zip" ++
      ((if host_out ≠ "" then ["-C", host_out] else []) ++
        ["-f", host_out ++ "/" ++ "general-tests_list"]),
    OptimizedBuildTarget.base_zip_command src_top dist_dir
      "general-tests.zip" ++ hseg ++ tseg ++ tools ++ ["-sha256"],
    ?_, ?_, ?_, ?_, rfl⟩
  · simp only [GeneralTestsOptimizer.get_package_outputs_commands_impl]
    rw [config_zips_commands_shape, hh, ht, htools]
    rfl
  · simp [OptimizedBuildTarget.base_zip_command]
  · simp [OptimizedBuildTarget.base_zip_command]
  · simp [OptimizedBuildTarget.base_zip_command]

/-- C10 counterexample: at a concrete input the second config-archive
operation (`general-tests_list.zip`) contains no `-l` option at all: it
is built from a non-empty files argument (`-f` with the combined list
file), not from a non-empty list-files argument as claimed for each
config operation. -/
theorem config_list_zip_files_counterexample :
    GeneralTestsOptimizer.get_zip_test_configs_zips_commands "s" "d" "h"
        "p" [] [] =
      Except.ok
        [["s/prebuilts/build-tools/linux-x86/bin/soong_zip", "-d", "-o",
          "d/general-tests_configs.zip", "-P", "host", "-C", "h", "-l",
          "h/host_general-tests_list", "-P", "target", "-C", "p", "-l",
          "p/target_general-tests_list"],
         ["s/prebuilts/build-tools/linux-x86/bin/soong_zip", "-d", "-o",
          "d/general-tests_list.zip", "-C", "h", "-f",
          "h/general-tests_list"]] ∧
    "-l" ∉ ["s/prebuilts/build-tools/linux-x86/bin/soong_zip", "-d", "-o",
          "d/general-tests_list.zip", "-C", "h", "-f",
          "h/general-tests_list"] ∧
    "-f" ∈ ["s/prebuilts/build-tools/linux-x86/bin/soong_zip", "-d", "-o",
          "d/general-tests_list.zip", "-C", "h", "-f",
          "h/general-tests_list"] :=
  ⟨rfl, by decide, by decide⟩

/-- C10 (amended): for every selection both config-archive operations are
emitted unconditionally and the zero-member RuntimeError branch of the
zip-segment builder is unreachable from the config-archive construction
path: the configs-zip operation carries the host and target manifest
paths as non-empty list-files arguments (`-l`), the list-zip operation
carries the combined list file as a non-empty files argument (`-f`), and
the referenced manifest files may have empty contents (with no selected
config files both manifests are written empty). -/
theorem config_zips_always_emitted
    (src_top dist_dir host_out product_out : String)
    (hcf tcf : List String) :
    ∃ c1 c2,
      GeneralTestsOptimizer.get_zip_test_configs_zips_commands src_top
        dist_dir host_out product_out hcf tcf = Except.ok [c1, c2] ∧
      ["-l", host_out ++ "/" ++ "host_general-tests_list"] <:+: c1 ∧
      ["-l", product_out ++ "/" ++ "target_general-tests_list"] <:+: c1 ∧
      ["-f", host_out ++ "/" ++ "general-tests_list"] <:+: c2 ∧
      host_config_list_contents [] = "" ∧
      target_config_list_contents [] = "" := by
  refine ⟨_, _,
    config_zips_commands_shape src_top dist_dir host_out product_out hcf
      tcf, ?_, ?_, ?_, rfl, rfl⟩
  · exact ⟨OptimizedBuildTarget.base_zip_command src_top dist_dir
      "general-tests_configs.zip" ++
      (["-P", "host"] ++ (if host_out ≠ "" then ["-C", host_out] else [])),
      ["-P", "target"] ++
        (if product_out ≠ "" then ["-C", product_out] else []) ++
        ["-l", product_out ++ "/" ++ "target_general-tests_list"],
      by simp⟩
  · exact ⟨OptimizedBuildTarget.base_zip_command src_top dist_dir
      "general-tests_configs.zip" ++
      (["-P", "host"] ++ (if host_out ≠ "" then ["-C", host_out] else []) ++
        ["-l", host_out ++ "/" ++ "host_general-tests_list"]) ++
      (["-P", "target"] ++
        (if product_out ≠ "" then ["-C", product_out] else [])),
      [], by simp⟩
  · exact ⟨OptimizedBuildTarget.base_zip_command src_top dist_dir
      "general-tests_list.zip" ++
      (if host_out ≠ "" then ["-C", host_out] else []),
      [], by simp⟩

/-- C6 witness: a concrete separator-free sub-path yields the
trailing-separator entry. -/
theorem changed_dirs_characterization_witness :
    "p" ++ "/" ++ pyDirname "a" = "p" ++ "/" ∧ "p" ++ "/" ≠ "p" :=
  (changed_dirs_characterization ⟨[⟨"p", [⟨[⟨"a"⟩]⟩]⟩]⟩ "p/").2
    ⟨"p", [⟨[⟨"a"⟩]⟩]⟩ ⟨"a"⟩ (by decide)
